import Mathlib

/-!
Verification of the FaceForge video-generation pipeline
(`api/routers/video.py` and `src/components/hedra_video.py`).

Bytes are modelled as `List Nat`; strings keep their Python values.
Network and subprocess effects are modelled by explicit environment
records (`FfmpegEnv`, `UploadEnv`) describing the outcome of each
external call, so every definition is a pure, executable function
translated line by line from the source.
-/

namespace FaceForge

/-! ### Basic string and byte helpers (Python built-ins used by the router) -/

abbrev Bytes := List Nat

/-- Python `str.lower()` (ASCII case folding, which is all the router compares). -/
def strToLower (s : String) : String := String.mk (s.data.map Char.toLower)

/-- Python `str.endswith(t)`. -/
def strEndsWith (s t : String) : Bool := t.data.isSuffixOf s.data

/-- Python `str.endswith((t1, t2, ...))`. -/
def endsWithAny (s : String) (ts : List String) : Bool := ts.any (fun t => strEndsWith s t)

/-- Python `str.startswith(t)`. -/
def strStartsWith (s t : String) : Bool := t.data.isPrefixOf s.data

/-- Python `t in s` substring test (for non-empty `t`). -/
def strContains (s t : String) : Bool := (s.data.tails).any (fun tl => t.data.isPrefixOf tl)

/-! ### Job-status translation (`get_job_status`, video.py lines 686-728) -/

/-- The remote-status payload returned by `GET /generations/{id}/status`,
as consumed by `get_job_status`.  Absent JSON keys are `none`.
`progress` is kept in its stringified form since the router only
re-stringifies it. -/
structure HedraStatusData where
  status : String
  created_at : Option String
  updated_at : Option String
  progress : Option String
  url : Option String
  assetType : Option String
  error_message : Option String
deriving DecidableEq

/-- Python truthiness of `dict.get(key)` for a string-valued key:
absent or empty string is falsy. -/
def optTruthy : Option String → Bool
  | none => false
  | some s => !s.data.isEmpty

/-- Python `a or b` on two optional strings (`hedra_data.get("updated_at") or
hedra_data.get("created_at")`). -/
def pyOr (a b : Option String) : Option String := if optTruthy a then a else b

/-- Status mapping of `get_job_status` (video.py lines 689-698). -/
def map_hedra_status (hedra_status : String) : String :=
  if hedra_status = "queued" then "queued"
  else if hedra_status = "processing" then "processing"
  else if hedra_status = "complete" then "completed"
  else if hedra_status = "error" then "failed"
  else "processing"

/-- The nested `result` object attached to a completed job (lines 710-715). -/
structure VideoResult where
  status : String
  video_url : String
  assetType : Option String
  created_at : Option String
deriving DecidableEq

/-- The `response_data` dict built by `get_job_status`. -/
structure JobStatusResponse where
  job_id : String
  status : String
  created_at : Option String
  progress : String
  result : Option VideoResult
  completed_at : Option String
  error : Option String
  started_at : Option String
deriving DecidableEq

/-- Response construction of `get_job_status` (video.py lines 700-728). -/
def build_status_response (job_id : String) (d : HedraStatusData) : JobStatusResponse :=
  let our_status := map_hedra_status d.status
  let r0 : JobStatusResponse :=
    { job_id := job_id
      status := our_status
      created_at := d.created_at
      progress := d.progress.getD "0.0"
      result := none
      completed_at := none
      error := none
      started_at := none }
  let r1 :=
    if our_status = "completed" ∧ optTruthy d.url = true then
      { r0 with
          result := some { status := d.status
                           video_url := d.url.getD ""
                           assetType := d.assetType
                           created_at := d.created_at }
          completed_at := pyOr d.updated_at d.created_at }
    else r0
  let r2 :=
    if our_status = "failed" then
      { r1 with
          error := some ("Generation failed: " ++ d.error_message.getD "Unknown error occurred")
          completed_at := pyOr d.updated_at d.created_at }
    else r1
  if our_status = "processing" then
    { r2 with started_at := pyOr d.updated_at d.created_at }
  else r2

/-! ### Theorems for C1 and C2 -/

/-- **C1.** The single-poll status translation maps remote `queued` to local
`queued`, `processing` to `processing`, `complete` to `completed`, `error` to
`failed`, and every other remote status string to `processing`; an unknown
remote status is never translated to `failed`. -/
theorem C1_status_translation :
    map_hedra_status "queued" = "queued" ∧
    map_hedra_status "processing" = "processing" ∧
    map_hedra_status "complete" = "completed" ∧
    map_hedra_status "error" = "failed" ∧
    (∀ s : String, s ≠ "queued" → s ≠ "processing" → s ≠ "complete" → s ≠ "error" →
      map_hedra_status s = "processing" ∧ map_hedra_status s ≠ "failed") := by
  refine ⟨rfl, rfl, rfl, rfl, ?_⟩
  intro s h1 h2 h3 h4
  simp [map_hedra_status, h1, h2, h3, h4]

/-- Witness for C1: a concrete unknown remote status (`"finalizing"`) maps to
`processing` and not to `failed`. -/
theorem C1_status_translation_witness :
    map_hedra_status "finalizing" = "processing" ∧ map_hedra_status "finalizing" ≠ "failed" :=
  C1_status_translation.2.2.2.2 "finalizing" (by decide) (by decide) (by decide) (by decide)

/-- **C2 counterexample.** A remote payload with status `complete` but no `url`
yields a local response whose status is `completed` but whose `result` field is
absent, refuting "`result` is present iff status is `completed`". -/
theorem C2_result_iff_completed_counterexample :
    (build_status_response "job-1"
      { status := "complete", created_at := none, updated_at := none,
        progress := none, url := none, assetType := none,
        error_message := none }).status = "completed" ∧
    (build_status_response "job-1"
      { status := "complete", created_at := none, updated_at := none,
        progress := none, url := none, assetType := none,
        error_message := none }).result = none := by
  constructor <;> rfl

/-- **C2 (amended).** In every job-status response, `result` is present iff the
local status is `completed` **and** the remote payload carried a non-empty
`url`; `error` is present iff the local status is `failed`. -/
theorem C2_result_error_presence (job_id : String) (d : HedraStatusData) :
    ((build_status_response job_id d).result.isSome = true ↔
      ((build_status_response job_id d).status = "completed" ∧ optTruthy d.url = true)) ∧
    ((build_status_response job_id d).error.isSome = true ↔
      (build_status_response job_id d).status = "failed") := by
  by_cases h1 : map_hedra_status d.status = "completed" ∧ optTruthy d.url = true
  · have h2 : ¬ map_hedra_status d.status = "failed" := by
      rw [h1.1]; decide
    have h3 : ¬ map_hedra_status d.status = "processing" := by
      rw [h1.1]; decide
    simp [build_status_response, h1, h2, h3]
  · by_cases h2 : map_hedra_status d.status = "failed"
    · have h3 : ¬ map_hedra_status d.status = "processing" := by
        rw [h2]; decide
      simp [build_status_response, h1, h2, h3]
    · by_cases h3 : map_hedra_status d.status = "processing"
      · simp [build_status_response, h1, h2, h3]
      · simp [build_status_response, h1, h2, h3]

/-! ### Magic-byte format sniffing (video.py lines 150-181 and 410-437) -/

/-- Image magic-byte detection and filename correction
(`start_hedra_generation`, video.py lines 150-181).  Takes the downloaded
bytes, the content type and filename in force before the check, and returns
the resolved `(content_type, filename)`. -/
def sniff_image (image_data : Bytes) (image_content_type image_filename : String) :
    String × String :=
  if 4 ≤ image_data.length then
    if [0xff, 0xd8, 0xff].isPrefixOf image_data then
      ("image/jpeg",
        if endsWithAny (strToLower image_filename) [".jpg", ".jpeg"] then image_filename
        else "image.jpg")
    else if [0x89, 0x50, 0x4e, 0x47].isPrefixOf image_data then
      ("image/png",
        if strEndsWith (strToLower image_filename) ".png" then image_filename
        else "image.png")
    else if [0x52, 0x49, 0x46, 0x46].isPrefixOf image_data ∧ 12 < image_data.length ∧
        (image_data.drop 8).take 4 = [0x57, 0x45, 0x42, 0x50] then
      ("image/webp",
        if strEndsWith (strToLower image_filename) ".webp" then image_filename
        else "image.webp")
    else if [0x47, 0x49, 0x46, 0x38].isPrefixOf image_data then
      ("image/gif",
        if strEndsWith (strToLower image_filename) ".gif" then image_filename
        else "image.gif")
    else (image_content_type, image_filename)
  else (image_content_type, image_filename)

/-- Audio magic-byte detection and filename correction
(`start_hedra_generation`, video.py lines 410-437).  Note that *any* `RIFF`
header is classified as WAV: there is no WEBP exception on the audio path. -/
def sniff_audio (audio_data : Bytes) (audio_content_type audio_filename : String) :
    String × String :=
  if 4 ≤ audio_data.length then
    if [0x52, 0x49, 0x46, 0x46].isPrefixOf audio_data then
      ("audio/wav",
        if strEndsWith (strToLower audio_filename) ".wav" then audio_filename
        else "audio.wav")
    else if [0x49, 0x44, 0x33].isPrefixOf audio_data ∨ [0xff, 0xfb].isPrefixOf audio_data ∨
        [0xff, 0xf3].isPrefixOf audio_data then
      ("audio/mpeg",
        if strEndsWith (strToLower audio_filename) ".mp3" then audio_filename
        else "audio.mp3")
    else if [0x1a, 0x45, 0xdf, 0xa3].isPrefixOf audio_data then
      ("audio/mpeg",
        if strEndsWith (strToLower audio_filename) ".mp3" then audio_filename
        else "audio.mp3")
    else (audio_content_type, audio_filename)
  else (audio_content_type, audio_filename)

/-! ### Theorems for C3 -/

/-- **C3 counterexample.** A 13-byte payload beginning with `RIFF` and with
`WEBP` at bytes 8-11, presented as an audio asset, is resolved to `audio/wav`,
not WEBP: the audio sniffing path has no WEBP exception. -/
theorem C3_webp_audio_counterexample :
    (sniff_audio [0x52, 0x49, 0x46, 0x46, 0, 0, 0, 0, 0x57, 0x45, 0x42, 0x50, 0]
        "application/octet-stream" "clip.webp").1 = "audio/wav" ∧
    (sniff_audio [0x52, 0x49, 0x46, 0x46, 0, 0, 0, 0, 0x57, 0x45, 0x42, 0x50, 0]
        "application/octet-stream" "clip.webp").2 = "audio.wav" := by
  constructor <;> rfl

/-- **C3 (amended).** For every byte string beginning with `RIFF`, with `WEBP`
at bytes 8-11 and total length greater than 12, *image*-kind sniffing resolves
the content type to `image/webp` (never WAV) regardless of the declared type,
while *audio*-kind sniffing resolves the same bytes to `audio/wav`. -/
theorem C3_webp_detection (data : Bytes) (ict ifn act afn : String)
    (hriff : [0x52, 0x49, 0x46, 0x46].isPrefixOf data = true)
    (hwebp : (data.drop 8).take 4 = [0x57, 0x45, 0x42, 0x50])
    (hlen : 12 < data.length) :
    (sniff_image data ict ifn).1 = "image/webp" ∧
    (sniff_audio data act afn).1 = "audio/wav" := by
  obtain ⟨t, rfl⟩ := List.isPrefixOf_iff_prefix.mp hriff
  have hlen4 : 4 ≤ ([0x52, 0x49, 0x46, 0x46] ++ t : Bytes).length := by
    simp
  constructor
  · simp only [sniff_image, if_pos hlen4]
    rw [if_neg (by simp [List.isPrefixOf]), if_neg (by simp [List.isPrefixOf]),
      if_pos ⟨by simp [List.isPrefixOf], hlen, hwebp⟩]
  · simp only [sniff_audio, if_pos hlen4]
    rw [if_pos (by simp [List.isPrefixOf])]

/-- Witness for C3 (amended): the detection at a concrete 13-byte WEBP header. -/
theorem C3_webp_detection_witness :
    (sniff_image [0x52, 0x49, 0x46, 0x46, 1, 2, 3, 4, 0x57, 0x45, 0x42, 0x50, 9]
        "application/octet-stream" "pic.bin").1 = "image/webp" ∧
    (sniff_audio [0x52, 0x49, 0x46, 0x46, 1, 2, 3, 4, 0x57, 0x45, 0x42, 0x50, 9]
        "application/octet-stream" "snd.bin").1 = "audio/wav" :=
  C3_webp_detection [0x52, 0x49, 0x46, 0x46, 1, 2, 3, 4, 0x57, 0x45, 0x42, 0x50, 9]
    "application/octet-stream" "pic.bin" "application/octet-stream" "snd.bin"
    (by decide) (by decide) (by decide)

/-! ### ffmpeg-based converters (video.py lines 766-870) -/

/-- Outcome of the external `ffmpeg` calls made by the converters: whether the
tool is available (`ffmpeg -version` exits 0), the exit code of the conversion
run, whether the output file exists afterwards, and the bytes it contains. -/
structure FfmpegEnv where
  available : Bool
  convertExitCode : Nat
  outputExists : Bool
  outputBytes : Bytes
deriving DecidableEq

/-- `convert_audio_to_mp3` (video.py lines 766-817): returns the original
bytes and filename unless ffmpeg is available, exits 0 and produced an output
file, in which case it returns the converted bytes as `audio.mp3`. -/
def convert_audio_to_mp3 (env : FfmpegEnv) (audio_data : Bytes) (original_filename : String) :
    Bytes × String :=
  if env.available = false then (audio_data, original_filename)
  else if env.convertExitCode = 0 ∧ env.outputExists = true then (env.outputBytes, "audio.mp3")
  else (audio_data, original_filename)

/-- `convert_image_to_jpeg` (video.py lines 819-870): same contract with
canonical output filename `image.jpg`. -/
def convert_image_to_jpeg (env : FfmpegEnv) (image_data : Bytes) (original_filename : String) :
    Bytes × String :=
  if env.available = false then (image_data, original_filename)
  else if env.convertExitCode = 0 ∧ env.outputExists = true then (env.outputBytes, "image.jpg")
  else (image_data, original_filename)

/-! ### Theorems for C8 -/

/-- **C8.** If the converter is unavailable, exits non-zero, or produces no
output file, both converters return exactly the original bytes and filename;
on successful conversion they return the converter output with the canonical
filename (`image.jpg` / `audio.mp3`). -/
theorem C8_converter_fallback (env : FfmpegEnv) (data : Bytes) (fn : String) :
    (env.available = false →
      convert_audio_to_mp3 env data fn = (data, fn) ∧
      convert_image_to_jpeg env data fn = (data, fn)) ∧
    (env.convertExitCode ≠ 0 →
      convert_audio_to_mp3 env data fn = (data, fn) ∧
      convert_image_to_jpeg env data fn = (data, fn)) ∧
    (env.outputExists = false →
      convert_audio_to_mp3 env data fn = (data, fn) ∧
      convert_image_to_jpeg env data fn = (data, fn)) ∧
    (env.available = true → env.convertExitCode = 0 → env.outputExists = true →
      convert_audio_to_mp3 env data fn = (env.outputBytes, "audio.mp3") ∧
      convert_image_to_jpeg env data fn = (env.outputBytes, "image.jpg")) := by
  refine ⟨?_, ?_, ?_, ?_⟩
  · intro h
    simp [convert_audio_to_mp3, convert_image_to_jpeg, h]
  · intro h
    constructor <;>
      · simp only [convert_audio_to_mp3, convert_image_to_jpeg]
        split
        · rfl
        · rw [if_neg (by simp [h]) ]
  · intro h
    constructor <;>
      · simp only [convert_audio_to_mp3, convert_image_to_jpeg]
        split
        · rfl
        · rw [if_neg (by simp [h]) ]
  · intro h1 h2 h3
    simp [convert_audio_to_mp3, convert_image_to_jpeg, h1, h2, h3]

/-- Witness for C8: a concrete environment where ffmpeg is unavailable keeps
the payload unchanged, and a concrete successful environment produces the
canonical filenames. -/
theorem C8_converter_fallback_witness :
    (convert_audio_to_mp3 ⟨false, 0, true, [7]⟩ [1, 2] "song.ogg" = ([1, 2], "song.ogg") ∧
      convert_image_to_jpeg ⟨false, 0, true, [7]⟩ [1, 2] "song.ogg" = ([1, 2], "song.ogg")) ∧
    (convert_audio_to_mp3 ⟨true, 0, true, [7]⟩ [1, 2] "song.ogg" = ([7], "audio.mp3") ∧
      convert_image_to_jpeg ⟨true, 0, true, [7]⟩ [1, 2] "song.ogg" = ([7], "image.jpg")) :=
  ⟨(C8_converter_fallback ⟨false, 0, true, [7]⟩ [1, 2] "song.ogg").1 rfl,
    (C8_converter_fallback ⟨true, 0, true, [7]⟩ [1, 2] "song.ogg").2.2.2 rfl rfl rfl⟩

/-! ### Upload flows with format-retry (video.py lines 256-318 and 497-560) -/

/-- Outcome of the remote upload calls surrounding one asset: whether the
first byte-upload attempt succeeds, the error body when it fails, the ffmpeg
environment used for the conversion retry, and the result of the retry
attempt. -/
structure UploadEnv where
  firstOk : Bool
  firstErrorText : String
  ffmpeg : FfmpegEnv
  retryOk : Bool
  retryErrorText : String
deriving DecidableEq

/-- Result of an upload flow: success or an HTTP-400 failure with its detail
string, together with the number of byte-upload POSTs that were issued. -/
inductive UploadOutcome where
  | success (uploadCalls : Nat)
  | failure (detail : String) (uploadCalls : Nat)
deriving DecidableEq

/-- The retry condition of the image upload path (video.py line 274):
the lowercased error body contains `unsupported` or `invalid`. -/
def image_retry_condition (error_text : String) : Bool :=
  strContains (strToLower error_text) "unsupported" ||
    strContains (strToLower error_text) "invalid"

/-- The retry condition of the audio upload path (video.py line 516):
the lowercased error body contains `unsupported audio mime type` or
`unsupported` — `invalid` alone does *not* trigger a retry here. -/
def audio_retry_condition (error_text : String) : Bool :=
  strContains (strToLower error_text) "unsupported audio mime type" ||
    strContains (strToLower error_text) "unsupported"

/-- Image byte-upload flow (video.py lines 256-318): one upload attempt, then
on a format-related failure a single conversion and retry, provided the
conversion actually changed the bytes. -/
def image_upload_flow (env : UploadEnv) (image_data : Bytes) (image_filename : String) :
    UploadOutcome :=
  if env.firstOk then .success 1
  else if image_retry_condition env.firstErrorText then
    if (convert_image_to_jpeg env.ffmpeg image_data image_filename).1 ≠ image_data then
      if env.retryOk then .success 2
      else .failure ("Image upload failed even after format conversion: " ++ env.retryErrorText) 2
    else .failure ("Image upload failed: " ++ env.firstErrorText) 1
  else .failure ("Image upload failed: " ++ env.firstErrorText) 1

/-- Audio byte-upload flow (video.py lines 497-560), same shape but with the
audio retry condition and `convert_audio_to_mp3`. -/
def audio_upload_flow (env : UploadEnv) (audio_data : Bytes) (audio_filename : String) :
    UploadOutcome :=
  if env.firstOk then .success 1
  else if audio_retry_condition env.firstErrorText then
    if (convert_audio_to_mp3 env.ffmpeg audio_data audio_filename).1 ≠ audio_data then
      if env.retryOk then .success 2
      else .failure ("Audio upload failed even after format conversion: " ++ env.retryErrorText) 2
    else .failure ("Audio upload failed: " ++ env.firstErrorText) 1
  else .failure ("Audio upload failed: " ++ env.firstErrorText) 1

/-! ### Theorems for C4 -/

/-- **C4 counterexample.** An audio upload rejected with the body
`"invalid audio format"` — a response indicating an invalid format — is *not*
retried: the flow fails after a single upload attempt, although the same error
body on the image path does trigger the transcode-and-retry (and succeeds).
The audio path only retries on `unsupported`. -/
theorem C4_retry_counterexample :
    audio_upload_flow
        ⟨false, "invalid audio format", ⟨true, 0, true, [5, 5]⟩, true, ""⟩ [9, 9, 9] "audio.wav"
      = .failure "Audio upload failed: invalid audio format" 1 ∧
    image_upload_flow
        ⟨false, "invalid audio format", ⟨true, 0, true, [5, 5]⟩, true, ""⟩ [9, 9, 9] "input.bin"
      = .success 2 := by
  constructor <;> rfl

/-- **C4 (amended).** One automatic transcode-and-retry exists per asset, but
the triggering predicate differs by kind: the image path retries when the
error body (lowercased) contains `unsupported` or `invalid`, the audio path
only when it contains `unsupported`.  When the predicate fails, or when the
transcoder returns the bytes unchanged, the original error propagates after a
single upload attempt; when the retry also fails the whole request aborts with
the retry error after exactly two attempts; a successful retry makes exactly
two attempts.  All six behaviors are stated for both the image and the audio
path. -/
theorem C4_upload_retry (env : UploadEnv) (data : Bytes) (fn : String) :
    (env.firstOk = false → image_retry_condition env.firstErrorText = false →
      image_upload_flow env data fn =
        .failure ("Image upload failed: " ++ env.firstErrorText) 1) ∧
    (env.firstOk = false → audio_retry_condition env.firstErrorText = false →
      audio_upload_flow env data fn =
        .failure ("Audio upload failed: " ++ env.firstErrorText) 1) ∧
    (env.firstOk = false → image_retry_condition env.firstErrorText = true →
      (convert_image_to_jpeg env.ffmpeg data fn).1 = data →
      image_upload_flow env data fn =
        .failure ("Image upload failed: " ++ env.firstErrorText) 1) ∧
    (env.firstOk = false → image_retry_condition env.firstErrorText = true →
      (convert_image_to_jpeg env.ffmpeg data fn).1 ≠ data → env.retryOk = true →
      image_upload_flow env data fn = .success 2) ∧
    (env.firstOk = false → image_retry_condition env.firstErrorText = true →
      (convert_image_to_jpeg env.ffmpeg data fn).1 ≠ data → env.retryOk = false →
      image_upload_flow env data fn =
        .failure ("Image upload failed even after format conversion: " ++ env.retryErrorText) 2) ∧
    (env.firstOk = false → audio_retry_condition env.firstErrorText = true →
      (convert_audio_to_mp3 env.ffmpeg data fn).1 ≠ data → env.retryOk = true →
      audio_upload_flow env data fn = .success 2) ∧
    (env.firstOk = false → audio_retry_condition env.firstErrorText = true →
      (convert_audio_to_mp3 env.ffmpeg data fn).1 = data →
      audio_upload_flow env data fn =
        .failure ("Audio upload failed: " ++ env.firstErrorText) 1) ∧
    (env.firstOk = false → audio_retry_condition env.firstErrorText = true →
      (convert_audio_to_mp3 env.ffmpeg data fn).1 ≠ data → env.retryOk = false →
      audio_upload_flow env data fn =
        .failure ("Audio upload failed even after format conversion: " ++ env.retryErrorText) 2) := by
  refine ⟨?_, ?_, ?_, ?_, ?_, ?_, ?_, ?_⟩
  · intro h1 h2
    simp [image_upload_flow, h1, h2]
  · intro h1 h2
    simp [audio_upload_flow, h1, h2]
  · intro h1 h2 h3
    simp [image_upload_flow, h1, h2, h3]
  · intro h1 h2 h3 h4
    simp [image_upload_flow, h1, h2, h3, h4]
  · intro h1 h2 h3 h4
    simp [image_upload_flow, h1, h2, h3, h4]
  · intro h1 h2 h3 h4
    simp [audio_upload_flow, h1, h2, h3, h4]
  · intro h1 h2 h3
    simp [audio_upload_flow, h1, h2, h3]
  · intro h1 h2 h3 h4
    simp [audio_upload_flow, h1, h2, h3, h4]

/-- Witness for C4 (amended): concrete environments exercising the
"no retry on a non-format error" branch, the successful audio retry, the
audio transcode that leaves the bytes unchanged, and the failed audio
retry. -/
theorem C4_upload_retry_witness :
    image_upload_flow ⟨false, "Unauthorized", ⟨true, 0, true, [5]⟩, true, ""⟩ [9] "a.bin"
      = .failure "Image upload failed: Unauthorized" 1 ∧
    audio_upload_flow ⟨false, "unsupported audio mime type", ⟨true, 0, true, [5]⟩, true, ""⟩
        [9] "a.wav" = .success 2 ∧
    audio_upload_flow ⟨false, "unsupported", ⟨false, 0, false, []⟩, true, "retry body"⟩
        [9] "a.wav" = .failure "Audio upload failed: unsupported" 1 ∧
    audio_upload_flow ⟨false, "unsupported", ⟨true, 0, true, [5]⟩, false, "retry body"⟩
        [9] "a.wav"
      = .failure "Audio upload failed even after format conversion: retry body" 2 :=
  ⟨(C4_upload_retry ⟨false, "Unauthorized", ⟨true, 0, true, [5]⟩, true, ""⟩ [9] "a.bin").1
      rfl (by decide),
    (C4_upload_retry ⟨false, "unsupported audio mime type", ⟨true, 0, true, [5]⟩, true, ""⟩
        [9] "a.wav").2.2.2.2.2.1 rfl (by decide) (by decide) rfl,
    (C4_upload_retry ⟨false, "unsupported", ⟨false, 0, false, []⟩, true, "retry body"⟩
        [9] "a.wav").2.2.2.2.2.2.1 rfl (by decide) (by decide),
    (C4_upload_retry ⟨false, "unsupported", ⟨true, 0, true, [5]⟩, false, "retry body"⟩
        [9] "a.wav").2.2.2.2.2.2.2 rfl (by decide) (by decide) rfl⟩

/-! ### Full per-asset normalization pipelines (video.py lines 185-191 and 394-467) -/

/-- Image conversion step (video.py lines 185-191): a sniffed type outside
the Hedra-friendly set is converted to JPEG and the content type is set to
`image/jpeg` whether or not the converter succeeded. -/
def image_conversion_step (env : FfmpegEnv) (data : Bytes) (ct fn : String) :
    Bytes × String × String :=
  if ct = "image/jpeg" ∨ ct = "image/jpg" ∨ ct = "image/png" then (data, ct, fn)
  else
    ((convert_image_to_jpeg env data fn).1, "image/jpeg", (convert_image_to_jpeg env data fn).2)

/-- Image ingestion after download: magic-byte sniffing followed by the
conversion step.  Returns `(bytes, content_type, filename)` as attached to
the upload. -/
def image_ingest (env : FfmpegEnv) (data : Bytes) (ct0 fn0 : String) :
    Bytes × String × String :=
  image_conversion_step env data (sniff_image data ct0 fn0).1 (sniff_image data ct0 fn0).2

/-- Audio filename fix-up from the declared content type
(video.py lines 394-408); the final fallback also rewrites the content type. -/
def fix_audio_filename (ct0 fn0 : String) : String × String :=
  if endsWithAny (strToLower fn0) [".mp3", ".wav", ".m4a", ".aac", ".ogg"] then (ct0, fn0)
  else if strContains ct0 "audio/wav" then (ct0, "audio.wav")
  else if strContains ct0 "audio/mpeg" || strContains ct0 "audio/mp3" then (ct0, "audio.mp3")
  else if strContains ct0 "audio/mp4" || strContains ct0 "audio/m4a" then (ct0, "audio.m4a")
  else if strContains ct0 "audio/aac" then (ct0, "audio.aac")
  else if strContains ct0 "audio/ogg" then (ct0, "audio.ogg")
  else ("audio/mpeg", "audio.mp3")

/-- Coercion of `video/*` content types to `audio/mpeg`
(video.py lines 439-444). -/
def coerce_video_type (ct fn : String) : String × String :=
  if strStartsWith ct "video/" = true then
    ("audio/mpeg", if strEndsWith (strToLower fn) ".mp3" then fn else "audio.mp3")
  else (ct, fn)

/-- Safety coercion of any remaining non-`audio/*` content type
(video.py lines 446-451). -/
def coerce_nonaudio_type (ct fn : String) : String × String :=
  if strStartsWith ct "audio/" = false then
    ("audio/mpeg", if strEndsWith (strToLower fn) ".mp3" then fn else "audio.mp3")
  else (ct, fn)

/-- Final filename/content-type alignment (video.py lines 453-459). -/
def align_audio_extension (ct fn : String) : String :=
  if ct = "audio/wav" ∧ strEndsWith (strToLower fn) ".wav" = false then "audio.wav"
  else if ct = "audio/mpeg" ∧ strEndsWith (strToLower fn) ".mp3" = false then "audio.mp3"
  else if ct = "audio/mp4" ∧ strEndsWith (strToLower fn) ".m4a" = false then "audio.m4a"
  else fn

/-- Audio conversion step (video.py lines 461-467): any content type other
than `audio/mpeg`/`audio/mp3` triggers a conversion attempt and the content
type is set to `audio/mpeg` whether or not the converter succeeded. -/
def audio_conversion_step (env : FfmpegEnv) (data : Bytes) (ct fn : String) :
    Bytes × String × String :=
  if ct = "audio/mpeg" ∨ ct = "audio/mp3" then (data, ct, fn)
  else
    ((convert_audio_to_mp3 env data fn).1, "audio/mpeg", (convert_audio_to_mp3 env data fn).2)

/-- Full audio normalization pipeline between download and upload
(video.py lines 394-467).  Returns `(bytes, content_type, filename)` as
attached to the first audio upload attempt. -/
def audio_ingest (env : FfmpegEnv) (data : Bytes) (ct0 fn0 : String) :
    Bytes × String × String :=
  let p1 := fix_audio_filename ct0 fn0
  let p2 := sniff_audio data p1.1 p1.2
  let p3 := coerce_video_type p2.1 p2.2
  let p4 := coerce_nonaudio_type p3.1 p3.2
  audio_conversion_step env data p4.1 (align_audio_extension p4.1 p4.2)

/-! ### Theorems for C6 -/

/-- **C6 counterexample.** A GIF payload (magic bytes `GIF89a`) with declared
type `application/octet-stream` is sniffed as `image/gif`, but with the
converter unavailable the upload attaches content type `image/jpeg` to the
*unconverted* GIF bytes with filename `image.gif`: the attached type is not
the magic-byte-derived one and the extension does not match it. -/
theorem C6_magic_invariant_counterexample :
    (sniff_image [0x47, 0x49, 0x46, 0x38, 0x39, 0x61]
        "application/octet-stream" "file.bin").1 = "image/gif" ∧
    image_ingest ⟨false, 0, false, []⟩ [0x47, 0x49, 0x46, 0x38, 0x39, 0x61]
        "application/octet-stream" "file.bin"
      = ([0x47, 0x49, 0x46, 0x38, 0x39, 0x61], "image/jpeg", "image.gif") ∧
    strEndsWith (strToLower "image.gif") ".jpg" = false ∧
    strEndsWith (strToLower "image.gif") ".jpeg" = false := by
  refine ⟨rfl, rfl, rfl, rfl⟩

/-- **C6 (amended).** At the sniffing stage magic-byte detection does override
the declared type with a matching extension, for each of the four recognized
signatures (JPEG, PNG, WEBP, GIF), and the content type finally attached to an
image upload is always one of `image/jpeg`, `image/jpg`, `image/png`; but when
the sniffed format requires conversion and the converter fails, the original
bytes and filename are kept while the attached type is forced to `image/jpeg`,
so the attached extension can disagree with the attached content type. -/
theorem C6_sniff_override_and_canonical_type (env : FfmpegEnv) (data : Bytes)
    (ct fn : String) :
    ((image_ingest env data ct fn).2.1 = "image/jpeg" ∨
      (image_ingest env data ct fn).2.1 = "image/jpg" ∨
      (image_ingest env data ct fn).2.1 = "image/png") ∧
    (4 ≤ data.length → [0xff, 0xd8, 0xff].isPrefixOf data = true →
      (sniff_image data ct fn).1 = "image/jpeg" ∧
      endsWithAny (strToLower (sniff_image data ct fn).2) [".jpg", ".jpeg"] = true) ∧
    (4 ≤ data.length → [0x89, 0x50, 0x4e, 0x47].isPrefixOf data = true →
      (sniff_image data ct fn).1 = "image/png" ∧
      strEndsWith (strToLower (sniff_image data ct fn).2) ".png" = true) ∧
    ([0x52, 0x49, 0x46, 0x46].isPrefixOf data = true → 12 < data.length →
      (data.drop 8).take 4 = [0x57, 0x45, 0x42, 0x50] →
      (sniff_image data ct fn).1 = "image/webp" ∧
      strEndsWith (strToLower (sniff_image data ct fn).2) ".webp" = true) ∧
    (4 ≤ data.length → [0x47, 0x49, 0x46, 0x38].isPrefixOf data = true →
      (sniff_image data ct fn).1 = "image/gif" ∧
      strEndsWith (strToLower (sniff_image data ct fn).2) ".gif" = true) ∧
    (¬((sniff_image data ct fn).1 = "image/jpeg" ∨ (sniff_image data ct fn).1 = "image/jpg" ∨
        (sniff_image data ct fn).1 = "image/png") →
      (env.available = false ∨ env.convertExitCode ≠ 0 ∨ env.outputExists = false) →
      image_ingest env data ct fn = (data, "image/jpeg", (sniff_image data ct fn).2)) := by
  refine ⟨?_, ?_, ?_, ?_, ?_, ?_⟩
  · have main : ∀ c f : String,
        ((image_conversion_step env data c f).2.1 = "image/jpeg" ∨
          (image_conversion_step env data c f).2.1 = "image/jpg" ∨
          (image_conversion_step env data c f).2.1 = "image/png") := by
      intro c f
      by_cases h : c = "image/jpeg" ∨ c = "image/jpg" ∨ c = "image/png"
      · simp only [image_conversion_step, if_pos h]
        exact h
      · simp only [image_conversion_step, if_neg h]
        simp
    simp only [image_ingest]
    exact main _ _
  · intro hlen hj
    simp only [sniff_image, if_pos hlen, if_pos hj]
    refine ⟨by simp, ?_⟩
    by_cases hc : endsWithAny (strToLower fn) [".jpg", ".jpeg"] = true
    · simp only [if_pos hc]
      exact hc
    · simp only [if_neg hc]
      decide
  · intro hlen hp
    obtain ⟨t, rfl⟩ := List.isPrefixOf_iff_prefix.mp hp
    simp only [sniff_image, if_pos hlen]
    rw [if_neg (by simp [List.isPrefixOf]), if_pos (by simp [List.isPrefixOf])]
    refine ⟨rfl, ?_⟩
    by_cases hc : strEndsWith (strToLower fn) ".png" = true
    · simp only [if_pos hc]
      exact hc
    · simp only [if_neg hc]
      decide
  · intro hriff hlen hwebp
    obtain ⟨t, rfl⟩ := List.isPrefixOf_iff_prefix.mp hriff
    have hlen4 : 4 ≤ ([0x52, 0x49, 0x46, 0x46] ++ t : Bytes).length := by
      simp
    simp only [sniff_image, if_pos hlen4]
    rw [if_neg (by simp [List.isPrefixOf]), if_neg (by simp [List.isPrefixOf]),
      if_pos ⟨by simp [List.isPrefixOf], hlen, hwebp⟩]
    refine ⟨rfl, ?_⟩
    by_cases hc : strEndsWith (strToLower fn) ".webp" = true
    · simp only [if_pos hc]
      exact hc
    · simp only [if_neg hc]
      decide
  · intro hlen hg
    obtain ⟨t, rfl⟩ := List.isPrefixOf_iff_prefix.mp hg
    simp only [sniff_image, if_pos hlen]
    rw [if_neg (by simp [List.isPrefixOf]), if_neg (by simp [List.isPrefixOf]),
      if_neg (by rintro ⟨h1, -⟩; simp [List.isPrefixOf] at h1),
      if_pos (by simp [List.isPrefixOf])]
    refine ⟨rfl, ?_⟩
    by_cases hc : strEndsWith (strToLower fn) ".gif" = true
    · simp only [if_pos hc]
      exact hc
    · simp only [if_neg hc]
      decide
  · intro hno hfail
    have hconv : convert_image_to_jpeg env data (sniff_image data ct fn).2 =
        (data, (sniff_image data ct fn).2) := by
      rcases hfail with h | h | h
      · simp [convert_image_to_jpeg, h]
      · simp only [convert_image_to_jpeg]
        split
        · rfl
        · rw [if_neg (by simp [h])]
      · simp only [convert_image_to_jpeg]
        split
        · rfl
        · rw [if_neg (by simp [h])]
    simp only [image_ingest, image_conversion_step, if_neg hno, hconv]

/-- Witness for C6 (amended): concrete GIF bytes with a mismatching declared
type, an extensionless filename, and an unavailable converter. -/
theorem C6_sniff_override_witness :
    ((sniff_image [0x47, 0x49, 0x46, 0x38, 0x39, 0x61] "application/octet-stream" "pic").1
        = "image/gif" ∧
      strEndsWith (strToLower
          (sniff_image [0x47, 0x49, 0x46, 0x38, 0x39, 0x61] "application/octet-stream" "pic").2)
        ".gif" = true) ∧
    image_ingest ⟨false, 0, false, []⟩ [0x47, 0x49, 0x46, 0x38, 0x39, 0x61]
        "application/octet-stream" "pic"
      = ([0x47, 0x49, 0x46, 0x38, 0x39, 0x61], "image/jpeg",
          (sniff_image [0x47, 0x49, 0x46, 0x38, 0x39, 0x61]
            "application/octet-stream" "pic").2) :=
  ⟨(C6_sniff_override_and_canonical_type ⟨false, 0, false, []⟩
      [0x47, 0x49, 0x46, 0x38, 0x39, 0x61] "application/octet-stream" "pic").2.2.2.2.1
      (by decide) (by decide),
    (C6_sniff_override_and_canonical_type ⟨false, 0, false, []⟩
      [0x47, 0x49, 0x46, 0x38, 0x39, 0x61] "application/octet-stream" "pic").2.2.2.2.2
      (by decide) (Or.inl rfl)⟩

/-! ### Theorems for C10 -/

/-- **C10.** Whatever content type the source server declared and whatever the
URL filename was, the content type attached to the first audio upload attempt
is always `audio/mpeg` or `audio/mp3`; it never begins with `video/` and
always begins with `audio/`. -/
theorem C10_audio_upload_type_invariant (env : FfmpegEnv) (data : Bytes) (ct fn : String) :
    ((audio_ingest env data ct fn).2.1 = "audio/mpeg" ∨
      (audio_ingest env data ct fn).2.1 = "audio/mp3") ∧
    strStartsWith (audio_ingest env data ct fn).2.1 "audio/" = true ∧
    strStartsWith (audio_ingest env data ct fn).2.1 "video/" = false := by
  have main : ∀ c f : String,
      ((audio_conversion_step env data c f).2.1 = "audio/mpeg" ∨
        (audio_conversion_step env data c f).2.1 = "audio/mp3") ∧
      strStartsWith (audio_conversion_step env data c f).2.1 "audio/" = true ∧
      strStartsWith (audio_conversion_step env data c f).2.1 "video/" = false := by
    intro c f
    by_cases h : c = "audio/mpeg" ∨ c = "audio/mp3"
    · simp only [audio_conversion_step, if_pos h]
      rcases h with h | h <;> subst h <;> exact ⟨by simp, by decide, by decide⟩
    · simp only [audio_conversion_step, if_neg h]
      exact ⟨by simp, by decide, by decide⟩
  simp only [audio_ingest]
  exact main _ _

/-! ### Download size validation (video.py lines 135-144 and 340-349) -/

/-- Result of the post-download minimum-size validation: rejection carries the
HTTP status and the logged (truncated to 200 bytes) body. -/
inductive FetchCheck where
  | reject (statusCode : Nat) (loggedBody : Bytes)
  | accept
deriving DecidableEq

/-- Minimum-size validation applied to both downloaded payloads
(video.py lines 135-144 for the image, 340-349 for the audio): payloads under
100 bytes are rejected with HTTP 400 after logging the first 200 bytes of the
body for diagnostics. -/
def validate_min_size (data : Bytes) : FetchCheck :=
  if data.length < 100 then .reject 400 (data.take 200)
  else .accept

/-- **C9.** Every successfully downloaded payload of fewer than 100 bytes is
rejected by the size validation with an error carrying the truncated body for
diagnostics, and every payload of 100 bytes or more passes the size check. -/
theorem C9_min_size_threshold (data : Bytes) :
    (data.length < 100 → validate_min_size data = .reject 400 (data.take 200)) ∧
    (100 ≤ data.length → validate_min_size data = .accept) := by
  constructor
  · intro h
    simp [validate_min_size, h]
  · intro h
    simp [validate_min_size, Nat.not_lt.mpr h]

/-- Witness for C9: a 5-byte payload is rejected with its body, a 100-byte
payload passes. -/
theorem C9_min_size_threshold_witness :
    validate_min_size (List.replicate 5 3) = .reject 400 ((List.replicate 5 3).take 200) ∧
    validate_min_size (List.replicate 100 3) = .accept :=
  ⟨(C9_min_size_threshold (List.replicate 5 3)).1 (by decide),
    (C9_min_size_threshold (List.replicate 100 3)).2 (by decide)⟩

/-! ### Generation payload (video.py lines 562-579, hedra_video.py lines 101-114,
requests.py lines 28-35) -/

/-- Python `int()` applied to a (rational-valued) number: truncation toward
zero. -/
def pyInt (q : ℚ) : ℤ := if 0 ≤ q then ⌊q⌋ else ⌈q⌉

/-- Python 3 `round()` to an integer: round half to even. -/
def pyRound (q : ℚ) : ℤ :=
  if q - ⌊q⌋ < 1 / 2 then ⌊q⌋
  else if (1 : ℚ) / 2 < q - ⌊q⌋ then ⌊q⌋ + 1
  else if ⌊q⌋ % 2 = 0 then ⌊q⌋ else ⌊q⌋ + 1

/-- The `generated_video_inputs` object of the generation payload.  A key the
code does not insert is `none`. -/
structure GeneratedVideoInputs where
  text_prompt : String
  resolution : String
  aspect_ratio : String
  duration_ms : Option ℤ
  seed : Option ℤ
deriving DecidableEq

/-- Payload assembly of `start_hedra_generation` (video.py lines 562-579,
identical in `generate_video`, hedra_video.py lines 101-114): `duration_ms`
is `int(duration * 1000)` and is inserted only when `duration` is not `None`;
`seed` is inserted only when not `None`. -/
def build_generated_video_inputs (text_prompt resolution aspect_ratio : String)
    (duration : Option ℚ) (seed : Option ℤ) : GeneratedVideoInputs :=
  { text_prompt := text_prompt
    resolution := resolution
    aspect_ratio := aspect_ratio
    duration_ms := duration.map (fun d => pyInt (d * 1000))
    seed := seed }

/-- The `seed` field of the pydantic request model
(`VideoGenerationRequest.seed : Optional[int] = 42`, requests.py lines 28-35):
an omitted field receives the default `42`; an explicit `null` yields `None`;
an explicit integer is kept. -/
def parse_seed : Option (Option ℤ) → Option ℤ
  | none => some 42
  | some v => v

/-! ### Theorems for C5 -/

/-- **C5 counterexample.** For a caller-supplied duration of `1.8995`
seconds (`3799/2000`), the payload's `duration_ms` is `int(1899.5) = 1899`,
while `round(1899.5)` is `1900`: the code truncates instead of rounding. -/
theorem C5_duration_round_counterexample :
    (build_generated_video_inputs "p" "720p" "16:9" (some (3799 / 2000)) none).duration_ms ≠
      some (pyRound ((3799 / 2000 : ℚ) * 1000)) := by
  have h1 : (build_generated_video_inputs "p" "720p" "16:9"
      (some (3799 / 2000)) none).duration_ms = some (pyInt ((3799 / 2000 : ℚ) * 1000)) := rfl
  have h2 : pyInt ((3799 / 2000 : ℚ) * 1000) = 1899 := by norm_num [pyInt]
  have h3 : pyRound ((3799 / 2000 : ℚ) * 1000) = 1900 := by norm_num [pyRound]
  rw [h1, h2, h3]
  decide

/-- **C5 (amended).** When the caller supplies a duration of `s` seconds, the
payload's `duration_ms` equals `int(s * 1000)` — truncation toward zero,
which is the floor of `s * 1000` for non-negative durations, not `round`;
when the caller supplies no duration, the `duration_ms` key is absent. -/
theorem C5_duration_encoding (t r a : String) (seed : Option ℤ) (s : ℚ) :
    (build_generated_video_inputs t r a (some s) seed).duration_ms =
      some (pyInt (s * 1000)) ∧
    (build_generated_video_inputs t r a none seed).duration_ms = none ∧
    (0 ≤ s → pyInt (s * 1000) = ⌊s * 1000⌋) := by
  refine ⟨rfl, rfl, ?_⟩
  intro h
  have h0 : (0 : ℚ) ≤ s * 1000 := by positivity
  simp [pyInt, h0]

/-- Witness for C5 (amended): a two-second duration encodes to the floor of
`2 * 1000`. -/
theorem C5_duration_encoding_witness :
    (build_generated_video_inputs "p" "720p" "16:9" (some 2) none).duration_ms =
      some (pyInt ((2 : ℚ) * 1000)) ∧
    (build_generated_video_inputs "p" "720p" "16:9" none none).duration_ms = none ∧
    pyInt ((2 : ℚ) * 1000) = ⌊(2 : ℚ) * 1000⌋ :=
  ⟨(C5_duration_encoding "p" "720p" "16:9" none 2).1,
    (C5_duration_encoding "p" "720p" "16:9" none 2).2.1,
    (C5_duration_encoding "p" "720p" "16:9" none 2).2.2 (by norm_num)⟩

/-! ### Theorems for C7 -/

/-- **C7 counterexample.** A submission in which the caller omits `seed`
entirely still sends a seed: the request model defaults the field to `42`, so
the payload contains `seed = 42` — a placeholder value the caller never
supplied. -/
theorem C7_seed_default_counterexample :
    parse_seed none = some 42 ∧
    (build_generated_video_inputs "p" "720p" "16:9" none (parse_seed none)).seed =
      some 42 := by
  exact ⟨rfl, rfl⟩

/-- **C7 (amended).** The payload contains the `seed` key iff the parsed
request's seed is non-null, and no null is ever sent; but because the request
model defaults `seed` to `42`, omitting the field sends `seed = 42` — only an
explicit JSON `null` keeps the key out of the payload. -/
theorem C7_seed_encoding (t r a : String) (d : Option ℚ) (callerSeed : Option (Option ℤ)) :
    (build_generated_video_inputs t r a d (parse_seed callerSeed)).seed =
      parse_seed callerSeed ∧
    parse_seed (some none) = none ∧
    (∀ n : ℤ, parse_seed (some (some n)) = some n) ∧
    parse_seed none = some 42 := by
  exact ⟨rfl, rfl, fun n => rfl, rfl⟩

end FaceForge
